import Mathlib

/-!
# Verification of the dialogue-generator server (`dialog_2_agents.py`)

A shallow embedding of the Flask/SocketIO dialogue server.  The mutable
process state (the `dialogs` and `stop_flags` dictionaries, the
`dialog_lock`) is threaded explicitly; the opaque model call, the
filesystem, and the clock are oracle parameters collected in `Env`.
Concurrent writes to a session's stop flag (from `handle_stop_dialog`)
are modelled by the read stream `Env.cancel`: `cancel i` is the value
returned by the `i`-th read of `stop_flags.get(sid, False)` performed
during one run of `handle_start_dialog`.
-/

deriving instance DecidableEq for Except

namespace DialogApp

/-! ## Python string helpers -/

/-- Characters removed by Python's `str.strip()` (the ASCII whitespace set). -/
def pySpace (c : Char) : Bool :=
  c = ' ' || c = '\t' || c = '\n' || c = '\r' || c = Char.ofNat 11 || c = Char.ofNat 12

/-- Python `str.strip()`. -/
def pyStrip (s : String) : String :=
  String.mk (((s.toList.dropWhile pySpace).reverse.dropWhile pySpace).reverse)

/-- Accumulate a decimal digit string; `none` on any non-digit. -/
def digitsToNat : List Char → Nat → Option Nat
  | [], acc => some acc
  | c :: cs, acc =>
    if c.isDigit then digitsToNat cs (acc * 10 + (c.toNat - 48)) else none

/-- Python `int()` on a string: optional sign, decimal digits, surrounding
whitespace allowed; anything else raises `ValueError` (`Except.error`). -/
def pyInt (s : String) : Except Unit Int :=
  match (pyStrip s).toList with
  | [] => Except.error ()
  | '-' :: rest =>
    match rest, digitsToNat rest 0 with
    | _ :: _, some n => Except.ok (-(n : Int))
    | _, _ => Except.error ()
  | '+' :: rest =>
    match rest, digitsToNat rest 0 with
    | _ :: _, some n => Except.ok ((n : Int))
    | _, _ => Except.error ()
  | l =>
    match digitsToNat l 0 with
    | some n => Except.ok ((n : Int))
    | none => Except.error ()

/-- A value taken from the incoming JSON-ish `data` dict: the client may send
`num_steps` either as a number or as a string. -/
inductive PyVal where
  | int (n : Int)
  | str (s : String)
deriving DecidableEq

/-- `int(v)` as applied on line 223 of the source to `data.get('num_steps', 7)`. -/
def pyIntOf : PyVal → Except Unit Int
  | PyVal.int n => Except.ok n
  | PyVal.str s => pyInt s

/-! ## The session store: the global `dialogs` and `stop_flags` dicts -/

/-- A Python dict keyed by SID. -/
def Store (α : Type) : Type := String → Option α

/-- `d[k] = v` -/
def Store.set {α : Type} (m : Store α) (k : String) (v : α) : Store α :=
  fun q => if q = k then some v else m q

/-- `del d[k]` -/
def Store.del {α : Type} (m : Store α) (k : String) : Store α :=
  fun q => if q = k then none else m q

/-- An initially empty dict. -/
def emptyStore {α : Type} : Store α := fun _ => none

/-! ## SocketIO events emitted to the client -/

inductive Event where
  | dialog_error (message : String)
  | waiting (step : Nat) (speaker : String)
  | new_line (step : Nat) (line : String)
  | dialog_completed (steps : Nat)
  | dialog_stopped (steps : Nat)
  | dialog_stopped_ack
deriving DecidableEq

/-! ## `check_gpu_status` (lines 34-52) -/

/-- The slice of a GPUtil GPU record the code reads: `gpu.load`. -/
structure GPUInfo where
  load : Rat
deriving DecidableEq

/-- `check_gpu_status()`: the argument is the outcome of `GPUtil.getGPUs()`
(`Except.error` when the query raises). -/
def check_gpu_status (q : Except Unit (List GPUInfo)) : String :=
  match q with
  | Except.error _ => "error"
  | Except.ok gpus =>
    match gpus with
    | [] => "no_gpu"
    | gpu :: _ => if gpu.load * 100 > 80 then "busy" else "free"

/-! ## `generate_response` (lines 135-164) -/

/-- One invocation of the llama_cpp model object. -/
structure ModelCall where
  prompt : String
  max_tokens : Nat
  stop : List String
deriving DecidableEq

def mainStop : List String := ["<end_of_turn>", "\n\n", "\n", "Ученый:", "Студент:"]

def retryStop : List String := ["<end_of_turn>", "\n"]

/-- The role-conditioned prompt of line 146. -/
def mainPrompt (topic personality_description conversation_history : String) : String :=
  "<start_of_turn>user\nТема диалога: " ++ topic ++ "\n\nВаша роль: "
    ++ personality_description
    ++ "\n\nИстория диалога (предыдущие реплики):\n" ++ conversation_history
    ++ "\n\nТеперь ваша очередь. Сгенерируйте одну реплику от своего имени, кратко и соответствуя роли. Не превышайте одно предложение.\n<end_of_turn>\n<start_of_turn>model\n"

/-- The simplified fallback prompt of line 157. -/
def retryPrompt (topic personality_description : String) : String :=
  "<start_of_turn>user\n" ++ personality_description ++ ". Ответь на тему \x27"
    ++ topic ++ "\x27 одной репликой.\n<end_of_turn>\n<start_of_turn>model\n"

/-- The first model call issued by `generate_response` (line 148). -/
def mkMainCall (topic pd ch : String) (mt : Nat) : ModelCall :=
  { prompt := mainPrompt topic pd ch, max_tokens := mt, stop := mainStop }

/-- The retry model call issued by `generate_response` (line 158). -/
def mkRetryCall (topic pd : String) : ModelCall :=
  { prompt := retryPrompt topic pd, max_tokens := 100, stop := retryStop }

def modelNotLoadedMsg : String := "Ошибка: Модель не загружена."

def genErrorMsg : String := "Ошибка: Не удалось сгенерировать ответ."

/-- Result of `generate_response` together with the trace of model calls it
issued (used to count invocations). -/
structure GenResult where
  response : String
  calls : List ModelCall
deriving DecidableEq

/-- `generate_response(topic, personality_description, conversation_history,
max_tokens=300)`.  `ml` is `model is not None`; `llm` is the opaque model:
`Except.error` models an exception raised during generation (caught by the
`except` on line 162). -/
def generate_response (ml : Bool) (llm : ModelCall → Except Unit String)
    (topic personality_description conversation_history : String)
    (max_tokens : Nat := 300) : GenResult :=
  if !ml then { response := modelNotLoadedMsg, calls := [] }
  else
    let c1 := mkMainCall topic personality_description conversation_history max_tokens
    match llm c1 with
    | Except.error _ => { response := genErrorMsg, calls := [c1] }
    | Except.ok t =>
      let response := pyStrip t
      if response = "" ∨ response.length < 5 then
        let c2 := mkRetryCall topic personality_description
        match llm c2 with
        | Except.error _ => { response := genErrorMsg, calls := [c1, c2] }
        | Except.ok t2 => { response := pyStrip (pyStrip t2), calls := [c1, c2] }
      else { response := pyStrip response, calls := [c1] }

/-! ## `save_dialog_to_file` (lines 86-114) -/

/-- Line 104: approximate step count in the metadata header. -/
def approxStepCount (dialog_history : String) : Nat :=
  ((dialog_history.splitOn "\n").filter
    (fun line => !(pyStrip line == "") && line.contains ':')).length / 2

/-- The metadata header followed by the verbatim transcript (lines 97-109). -/
def dialogFileContent (sid topic r1n r1d r2n r2d dialog_history timeStr : String) : String :=
  "=== Метаданные диалога ===\nSID: " ++ sid
    ++ "\nТема диалога: " ++ topic
    ++ "\nРоль 1: " ++ r1n ++ "\nОписание роли 1: " ++ r1d
    ++ "\nРоль 2: " ++ r2n ++ "\nОписание роли 2: " ++ r2d
    ++ "\nКоличество шагов: " ++ toString (approxStepCount dialog_history) ++ " (примерно)"
    ++ "\nВремя создания: " ++ timeStr
    ++ "\n=== История диалога ===\n\n" ++ dialog_history ++ "\n"

/-- `save_dialog_to_file`.  `mkdirsOk` is the outcome of `os.makedirs` (line 92,
OUTSIDE the `try`: its failure propagates as `Except.error`); `writeOk` is the
outcome of opening/writing the file (inside the `try`: its failure is caught
and logged, yielding `Except.ok none`).  On success the written file
(name, content) is returned. -/
def save_dialog_to_file (mkdirsOk writeOk : Bool) (timestamp : Nat) (timeStr : String)
    (sid dialog_history topic role1_name role1_description role2_name role2_description :
      String) : Except Unit (Option (String × String)) :=
  if !mkdirsOk then Except.error ()
  else
    let filename := "logs/dialog_" ++ sid ++ "_" ++ toString timestamp ++ ".txt"
    if writeOk then
      Except.ok (some (filename,
        dialogFileContent sid topic role1_name role1_description role2_name
          role2_description dialog_history timeStr))
    else Except.ok none

/-! ## `handle_start_dialog` (lines 194-291) and its turn loop -/

/-- The `start_dialog` payload after the `data.get(..., default)` calls of
lines 210-222; `num_steps` is still raw (the `int()` of line 223 may fail). -/
structure Request where
  topic : String
  role1_name : String
  role1_description : String
  role2_name : String
  role2_description : String
  num_steps : PyVal

/-- Lines 239-244: speaker chosen by turn parity. -/
def speakerFor (req : Request) (step : Nat) : String :=
  if step % 2 = 1 then req.role1_name else req.role2_name

/-- Lines 239-244: personality chosen by turn parity. -/
def personalityFor (req : Request) (step : Nat) : String :=
  if step % 2 = 1 then req.role1_description else req.role2_description

/-- Line 260: the fixed scripted opening line. -/
def fixedOpener : String := "Привет, давай поспорим?"

/-- One produced turn (ghost trace of the `new_line` emission of line 273). -/
structure PubEntry where
  step : Nat
  speaker : String
  response : String
deriving DecidableEq

/-- One call of `generate_response` from the loop (ghost trace, line 262). -/
structure ACall where
  step : Nat
  topic : String
  personality : String
  history : String
deriving DecidableEq

/-- Result of the `for step in range(1, num_steps + 1)` loop (lines 234-276).
`dtxt` is the value of `dialogs[sid]` (the only key the loop touches);
`lastStep` is the Python variable `step` after the loop; `reads` is the index
of the next read of the stop flag. -/
structure LoopOut where
  events : List Event
  published : List PubEntry
  acalls : List ACall
  hist : String
  dtxt : String
  lastStep : Nat
  reads : Nat

/-- The dialog loop, by remaining iteration count.  `s` is the current value
of `step`, `r` the index of the next stop-flag read, `hist` the local
`conversation_history`, `dtxt` the store entry `dialogs[sid]`.  Checkpoints:
read `r` at the top of the body (line 235), read `r+1` after the pacing sleep
(line 255), read `r+2` after generation (line 264). -/
def runLoop (req : Request) (ml : Bool) (llm : ModelCall → Except Unit String)
    (cancel : Nat → Bool) : Nat → Nat → Nat → String → String → LoopOut
  | 0, s, r, hist, dtxt =>
    { events := [], published := [], acalls := [], hist := hist, dtxt := dtxt,
      lastStep := s - 1, reads := r }
  | n + 1, s, r, hist, dtxt =>
    if cancel r then
      { events := [], published := [], acalls := [], hist := hist, dtxt := dtxt,
        lastStep := s, reads := r + 1 }
    else
      let speaker := speakerFor req s
      let personality := personalityFor req s
      if cancel (r + 1) then
        { events := [Event.waiting s speaker], published := [], acalls := [],
          hist := hist, dtxt := dtxt, lastStep := s, reads := r + 2 }
      else
        let response :=
          if s = 1 ∧ speaker = req.role1_name then fixedOpener
          else (generate_response ml llm req.topic personality hist).response
        let newCalls : List ACall :=
          if s = 1 ∧ speaker = req.role1_name then []
          else [{ step := s, topic := req.topic, personality := personality, history := hist }]
        if cancel (r + 2) then
          { events := [Event.waiting s speaker], published := [], acalls := newCalls,
            hist := hist, dtxt := dtxt, lastStep := s, reads := r + 3 }
        else
          let line := speaker ++ ": " ++ response
          let rest := runLoop req ml llm cancel n (s + 1) (r + 3)
            (hist ++ line ++ "\n") (dtxt ++ line ++ "\n")
          { events := Event.waiting s speaker :: Event.new_line s line :: rest.events,
            published := { step := s, speaker := speaker, response := response } :: rest.published,
            acalls := newCalls ++ rest.acalls,
            hist := rest.hist, dtxt := rest.dtxt,
            lastStep := rest.lastStep, reads := rest.reads }

/-- The environment of one `handle_start_dialog` run: the gate, the global
`model`, the opaque model call, the interleaved stop-flag reads, the
filesystem and the clock. -/
structure Env where
  gateFree : Bool
  modelLoaded : Bool
  llm : ModelCall → Except Unit String
  cancel : Nat → Bool
  mkdirsOk : Bool
  writeOk : Bool
  timestamp : Nat
  timeStr : String

def lockedMsg : String :=
  "Ошибка: Диалог уже запущен другим пользователем. Пожалуйста, подождите."

/-- Observable outcome of one `handle_start_dialog` invocation.  `acquired`:
this invocation's `dialog_lock.acquire(blocking=False)` succeeded;
`released`: how many times it called `dialog_lock.release()`; `exn`: a Python
exception escaped the handler. -/
structure HOut where
  events : List Event
  dialogs : Store String
  stops : Store Bool
  acquired : Bool
  released : Nat
  exn : Bool
  published : List PubEntry
  acalls : List ACall
  archiveArg : Option String

/-- Lines 225-291: the body guarded by `try`/`finally` (entered only after the
gate was acquired and `num_steps` parsed), plus the `finally` release. -/
def startDialogWithSteps (env : Env) (req : Request) (sid : String)
    (dialogs0 : Store String) (stops0 : Store Bool) (numSteps : Int) : HOut :=
  if !env.modelLoaded then
    { events := [Event.new_line 0 modelNotLoadedMsg],
      dialogs := Store.set dialogs0 sid "",
      stops := Store.set stops0 sid false,
      acquired := true, released := 1, exn := false,
      published := [], acalls := [], archiveArg := none }
  else
    let out := runLoop req env.modelLoaded env.llm env.cancel numSteps.toNat 1 0 "" ""
    if numSteps < 1 then
      -- the loop body never ran, so `step` is unbound: the logging f-string on
      -- line 280/285 raises NameError; `finally` still releases the gate
      { events := out.events,
        dialogs := Store.set (Store.set dialogs0 sid "") sid out.dtxt,
        stops := Store.set stops0 sid false,
        acquired := true, released := 1, exn := true,
        published := out.published, acalls := out.acalls, archiveArg := none }
    else
      match save_dialog_to_file env.mkdirsOk env.writeOk env.timestamp env.timeStr
          sid out.dtxt req.topic req.role1_name req.role1_description
          req.role2_name req.role2_description with
      | Except.error _ =>
        -- os.makedirs raised: the exception escapes `save_dialog_to_file`
        -- before any terminal event; `finally` still releases the gate
        { events := out.events,
          dialogs := Store.set (Store.set dialogs0 sid "") sid out.dtxt,
          stops := Store.set stops0 sid false,
          acquired := true, released := 1, exn := true,
          published := out.published, acalls := out.acalls,
          archiveArg := some out.dtxt }
      | Except.ok _ =>
        { events := out.events ++
            [if env.cancel out.reads then Event.dialog_stopped out.lastStep
             else Event.dialog_completed out.lastStep],
          dialogs := Store.del (Store.set (Store.set dialogs0 sid "") sid out.dtxt) sid,
          stops := Store.set stops0 sid false,
          acquired := true, released := 1, exn := false,
          published := out.published, acalls := out.acalls,
          archiveArg := some out.dtxt }

/-- `handle_start_dialog` (lines 194-291).  Lines 198/201 write the two store
entries before the gate is even tried; the `int()` of line 223 runs after a
successful acquisition but before the `try`/`finally`, so its failure leaves
the gate held (`released = 0`). -/
def handle_start_dialog (env : Env) (req : Request) (sid : String)
    (dialogs0 : Store String) (stops0 : Store Bool) : HOut :=
  if !env.gateFree then
    { events := [Event.dialog_error lockedMsg],
      dialogs := Store.set dialogs0 sid "",
      stops := Store.set stops0 sid false,
      acquired := false, released := 0, exn := false,
      published := [], acalls := [], archiveArg := none }
  else
    match pyIntOf req.num_steps with
    | Except.error _ =>
      { events := [],
        dialogs := Store.set dialogs0 sid "",
        stops := Store.set stops0 sid false,
        acquired := true, released := 0, exn := true,
        published := [], acalls := [], archiveArg := none }
    | Except.ok numSteps => startDialogWithSteps env req sid dialogs0 stops0 numSteps

/-- `handle_stop_dialog` (lines 185-191): set the flag, acknowledge. -/
def handle_stop_dialog (sid : String) (stops0 : Store Bool) :
    Store Bool × List Event :=
  (Store.set stops0 sid true, [Event.dialog_stopped_ack])

/-! ## Projections used in claim statements -/

/-- The turn index carried by a `new_line` event. -/
def newLineIdx : Event → Option Nat
  | Event.new_line s _ => some s
  | _ => none

/-- The formatted line carried by a `new_line` event. -/
def newLineText : Event → Option String
  | Event.new_line _ l => some l
  | _ => none

/-- Terminal notifications (`dialog_completed` / `dialog_stopped`). -/
def isTerminalEvent : Event → Bool
  | Event.dialog_completed _ => true
  | Event.dialog_stopped _ => true
  | _ => false

/-- The transcript text obtained by appending each line plus a newline, as
lines 269-270 do. -/
def joinLines : List String → String
  | [] => ""
  | l :: ls => l ++ "\n" ++ joinLines ls

/-! ## String append facts -/

lemma strData_append (a b : String) : (a ++ b).data = a.data ++ b.data := rfl

lemma strExt {a b : String} (h : a.data = b.data) : a = b := by
  cases a; cases b; cases h; rfl

lemma strAppend_empty (s : String) : s ++ "" = s := by
  apply strExt; rw [strData_append]; exact List.append_nil _

lemma strEmpty_append (s : String) : "" ++ s = s := by
  apply strExt; rw [strData_append]; rfl

lemma strAppend_assoc (a b c : String) : a ++ b ++ c = a ++ (b ++ c) := by
  apply strExt; rw [strData_append, strData_append, strData_append, strData_append]
  exact List.append_assoc _ _ _

lemma joinLines_nil : joinLines [] = "" := rfl

lemma joinLines_cons (l : String) (ls : List String) :
    joinLines (l :: ls) = l ++ "\n" ++ joinLines ls := rfl

/-! ## Loop lemmas -/

lemma range'_succ_eq (s n : Nat) : List.range' s (n + 1) = s :: List.range' (s + 1) n := rfl

/-- With no cancellation the loop publishes exactly the turn indices
`s, s+1, …, s+n-1`, in order, emits no terminal event, and leaves the Python
`step` variable at `s + n - 1`. -/
lemma runLoop_nocancel (req : Request) (ml : Bool) (llm : ModelCall → Except Unit String)
    (cancel : Nat → Bool) (hc : ∀ i, cancel i = false) :
    ∀ (n s r : Nat) (hist dtxt : String),
      (runLoop req ml llm cancel n s r hist dtxt).events.filterMap newLineIdx
          = List.range' s n
      ∧ (runLoop req ml llm cancel n s r hist dtxt).lastStep = s + n - 1
      ∧ ∀ e ∈ (runLoop req ml llm cancel n s r hist dtxt).events,
          isTerminalEvent e = false := by
  intro n
  induction n with
  | zero =>
    intro s r hist dtxt
    simp [runLoop, List.filterMap]
  | succ n ih =>
    intro s r hist dtxt
    have h0 := hc r
    have h1 := hc (r + 1)
    have h2 := hc (r + 2)
    obtain ⟨ihA, ihB, ihC⟩ := ih (s + 1) (r + 3)
      (hist ++ (speakerFor req s ++ ": " ++
        (if s = 1 ∧ speakerFor req s = req.role1_name then fixedOpener
         else (generate_response ml llm req.topic (personalityFor req s) hist).response)) ++ "\n")
      (dtxt ++ (speakerFor req s ++ ": " ++
        (if s = 1 ∧ speakerFor req s = req.role1_name then fixedOpener
         else (generate_response ml llm req.topic (personalityFor req s) hist).response)) ++ "\n")
    refine ⟨?_, ?_, ?_⟩
    · simp only [runLoop, h0, Bool.false_eq_true, if_false, h1, h2,
        List.filterMap_cons, newLineIdx, range'_succ_eq]
      rw [ihA]
    · simp only [runLoop, h0, Bool.false_eq_true, if_false, h1, h2]
      rw [ihB]; omega
    · simp only [runLoop, h0, Bool.false_eq_true, if_false, h1, h2]
      intro e he
      rcases List.mem_cons.mp he with he | he
      · subst he; rfl
      · rcases List.mem_cons.mp he with he | he
        · subst he; rfl
        · exact ihC e he

/-- Every `new_line` event carries a line formatted `speaker ++ ": " ++ u`
with the speaker determined by turn parity. -/
lemma runLoop_newline_shape (req : Request) (ml : Bool)
    (llm : ModelCall → Except Unit String) (cancel : Nat → Bool) :
    ∀ (n s r : Nat) (hist dtxt : String) (s2 : Nat) (l : String),
      Event.new_line s2 l ∈ (runLoop req ml llm cancel n s r hist dtxt).events →
      ∃ u, l = speakerFor req s2 ++ ": " ++ u := by
  intro n
  induction n with
  | zero => intro s r hist dtxt s2 l h; simp [runLoop] at h
  | succ n ih =>
    intro s r hist dtxt s2 l h
    by_cases h0 : cancel r
    · simp [runLoop, h0] at h
    · by_cases h1 : cancel (r + 1)
      · simp [runLoop, h0, h1] at h
      · by_cases h2 : cancel (r + 2)
        · simp [runLoop, h0, h1, h2] at h
        · simp only [runLoop, h0, Bool.false_eq_true, if_false, h1, h2,
            List.mem_cons] at h
          rcases h with h | h | h
          · exact absurd h (by simp)
          · obtain ⟨hs, hl⟩ := Event.new_line.inj h.symm
            subst hs
            exact ⟨_, hl.symm⟩
          · exact ih _ _ _ _ s2 l h

/-- A turn is published only if the stop-flag read at its checkpoint C
(read index `r + 3*(s2-s) + 2`) returned `false`. -/
lemma runLoop_newline_read (req : Request) (ml : Bool)
    (llm : ModelCall → Except Unit String) (cancel : Nat → Bool) :
    ∀ (n s r : Nat) (hist dtxt : String) (s2 : Nat) (l : String),
      Event.new_line s2 l ∈ (runLoop req ml llm cancel n s r hist dtxt).events →
      s ≤ s2 ∧ cancel (r + 3 * (s2 - s) + 2) = false := by
  intro n
  induction n with
  | zero => intro s r hist dtxt s2 l h; simp [runLoop] at h
  | succ n ih =>
    intro s r hist dtxt s2 l h
    by_cases h0 : cancel r
    · simp [runLoop, h0] at h
    · by_cases h1 : cancel (r + 1)
      · simp [runLoop, h0, h1] at h
      · by_cases h2 : cancel (r + 2)
        · simp [runLoop, h0, h1, h2] at h
        · simp only [runLoop, h0, Bool.false_eq_true, if_false, h1, h2,
            List.mem_cons] at h
          rcases h with h | h | h
          · exact absurd h (by simp)
          · obtain ⟨hs, -⟩ := Event.new_line.inj h.symm
            subst hs
            refine ⟨le_refl _, ?_⟩
            simpa using eq_false_of_ne_true h2
          · obtain ⟨hle, hcan⟩ := ih _ _ _ _ s2 l h
            refine ⟨by omega, ?_⟩
            have : r + 3 + 3 * (s2 - (s + 1)) + 2 = r + 3 * (s2 - s) + 2 := by omega
            rwa [this] at hcan

/-- A turn's `waiting` notification is emitted only if the read at its
checkpoint A (read index `r + 3*(s2-s)`) returned `false`. -/
lemma runLoop_waiting_read (req : Request) (ml : Bool)
    (llm : ModelCall → Except Unit String) (cancel : Nat → Bool) :
    ∀ (n s r : Nat) (hist dtxt : String) (s2 : Nat) (sp : String),
      Event.waiting s2 sp ∈ (runLoop req ml llm cancel n s r hist dtxt).events →
      s ≤ s2 ∧ cancel (r + 3 * (s2 - s)) = false := by
  intro n
  induction n with
  | zero => intro s r hist dtxt s2 sp h; simp [runLoop] at h
  | succ n ih =>
    intro s r hist dtxt s2 sp h
    by_cases h0 : cancel r
    · simp [runLoop, h0] at h
    · have hr : cancel (r + 3 * 0) = false := by
        simpa using eq_false_of_ne_true h0
      by_cases h1 : cancel (r + 1)
      · simp only [runLoop, h0, Bool.false_eq_true, if_false, h1, if_true,
          List.mem_singleton] at h
        obtain ⟨hs, -⟩ := Event.waiting.inj h
        subst hs
        exact ⟨le_refl _, by simpa using hr⟩
      · by_cases h2 : cancel (r + 2)
        · simp only [runLoop, h0, Bool.false_eq_true, if_false, h1, h2, if_true,
            List.mem_singleton] at h
          obtain ⟨hs, -⟩ := Event.waiting.inj h
          subst hs
          exact ⟨le_refl _, by simpa using hr⟩
        · simp only [runLoop, h0, Bool.false_eq_true, if_false, h1, h2,
            List.mem_cons] at h
          rcases h with h | h | h
          · obtain ⟨hs, -⟩ := Event.waiting.inj h
            subst hs
            exact ⟨le_refl _, by simpa using hr⟩
          · exact absurd h (by simp)
          · obtain ⟨hle, hcan⟩ := ih _ _ _ _ s2 sp h
            refine ⟨by omega, ?_⟩
            have : r + 3 + 3 * (s2 - (s + 1)) = r + 3 * (s2 - s) := by omega
            rwa [this] at hcan

/-- Published speakers follow turn parity, turn 1 (if published) carries the
fixed opener, and the inference adapter is never called for turn 1. -/
lemma runLoop_opener (req : Request) (ml : Bool)
    (llm : ModelCall → Except Unit String) (cancel : Nat → Bool) :
    ∀ (n s r : Nat) (hist dtxt : String), 1 ≤ s →
      (∀ pe ∈ (runLoop req ml llm cancel n s r hist dtxt).published,
          pe.speaker = speakerFor req pe.step
          ∧ (pe.step = 1 → pe.response = fixedOpener))
      ∧ ∀ c ∈ (runLoop req ml llm cancel n s r hist dtxt).acalls, 2 ≤ c.step := by
  intro n
  induction n with
  | zero => intro s r hist dtxt hs; simp [runLoop]
  | succ n ih =>
    intro s r hist dtxt hs
    by_cases h0 : cancel r
    · simp [runLoop, h0]
    · by_cases h1 : cancel (r + 1)
      · simp [runLoop, h0, h1]
      · obtain ⟨ihP, ihC⟩ := ih (s + 1) (r + 3)
          (hist ++ (speakerFor req s ++ ": " ++
            (if s = 1 ∧ speakerFor req s = req.role1_name then fixedOpener
             else (generate_response ml llm req.topic (personalityFor req s) hist).response)) ++ "\n")
          (dtxt ++ (speakerFor req s ++ ": " ++
            (if s = 1 ∧ speakerFor req s = req.role1_name then fixedOpener
             else (generate_response ml llm req.topic (personalityFor req s) hist).response)) ++ "\n")
          (by omega)
        have hcall : ∀ c ∈ (if s = 1 ∧ speakerFor req s = req.role1_name then
            ([] : List ACall)
          else [{ step := s, topic := req.topic, personality := personalityFor req s,
                  history := hist }]), 2 ≤ c.step := by
          by_cases hs1 : s = 1
          · subst hs1
            simp [speakerFor]
          · intro c hc
            rw [if_neg (by intro h; exact hs1 h.1)] at hc
            rcases List.mem_singleton.mp hc with rfl
            show 2 ≤ s
            omega
        by_cases h2 : cancel (r + 2)
        · refine ⟨?_, ?_⟩
          · simp [runLoop, h0, h1, h2]
          · simp only [runLoop, h0, Bool.false_eq_true, if_false, h1, h2, if_true]
            exact hcall
        · refine ⟨?_, ?_⟩
          · simp only [runLoop, h0, Bool.false_eq_true, if_false, h1, h2]
            intro pe hpe
            rcases List.mem_cons.mp hpe with hpe | hpe
            · subst hpe
              refine ⟨rfl, ?_⟩
              intro hstep
              show (if s = 1 ∧ speakerFor req s = req.role1_name then fixedOpener
                else (generate_response ml llm req.topic (personalityFor req s) hist).response)
                = fixedOpener
              have hs1 : s = 1 := hstep
              subst hs1
              simp [speakerFor]
            · exact ihP pe hpe
          · simp only [runLoop, h0, Bool.false_eq_true, if_false, h1, h2]
            intro c hc
            rcases List.mem_append.mp hc with hc | hc
            · exact hcall c hc
            · exact ihC c hc

/-- The local `conversation_history`, the store entry `dialogs[sid]`, and the
lines carried by the emitted `new_line` events advance in lockstep. -/
lemma runLoop_transcript (req : Request) (ml : Bool)
    (llm : ModelCall → Except Unit String) (cancel : Nat → Bool) :
    ∀ (n s r : Nat) (hist dtxt : String), hist = dtxt →
      (runLoop req ml llm cancel n s r hist dtxt).hist
          = (runLoop req ml llm cancel n s r hist dtxt).dtxt
      ∧ (runLoop req ml llm cancel n s r hist dtxt).dtxt
          = dtxt ++ joinLines ((runLoop req ml llm cancel n s r hist dtxt).events.filterMap newLineText) := by
  intro n
  induction n with
  | zero =>
    intro s r hist dtxt h
    exact ⟨h, by simp [runLoop, List.filterMap, joinLines_nil, strAppend_empty]⟩
  | succ n ih =>
    intro s r hist dtxt h
    by_cases h0 : cancel r
    · exact ⟨by simp [runLoop, h0, h], by simp [runLoop, h0, List.filterMap, joinLines_nil, strAppend_empty]⟩
    · by_cases h1 : cancel (r + 1)
      · refine ⟨by simp [runLoop, h0, h1, h], ?_⟩
        simp [runLoop, h0, h1, List.filterMap, newLineText, joinLines_nil, strAppend_empty]
      · by_cases h2 : cancel (r + 2)
        · refine ⟨by simp [runLoop, h0, h1, h2, h], ?_⟩
          simp [runLoop, h0, h1, h2, List.filterMap, newLineText, joinLines_nil, strAppend_empty]
        · subst h
          obtain ⟨ihH, ihD⟩ := ih (s + 1) (r + 3)
            (hist ++ (speakerFor req s ++ ": " ++
              (if s = 1 ∧ speakerFor req s = req.role1_name then fixedOpener
               else (generate_response ml llm req.topic (personalityFor req s) hist).response)) ++ "\n")
            (hist ++ (speakerFor req s ++ ": " ++
              (if s = 1 ∧ speakerFor req s = req.role1_name then fixedOpener
               else (generate_response ml llm req.topic (personalityFor req s) hist).response)) ++ "\n")
            rfl
          refine ⟨?_, ?_⟩
          · simp only [runLoop, h0, Bool.false_eq_true, if_false, h1, h2]
            exact ihH
          · simp only [runLoop, h0, Bool.false_eq_true, if_false, h1, h2,
              List.filterMap_cons, newLineText]
            rw [joinLines_cons, ihD]
            simp only [strAppend_assoc]

/-! ## Handler-level lemmas -/

/-- After a successful acquisition and `int()` parse, the handler runs the
`try`/`finally` body. -/
lemma handle_start_dialog_ok (env : Env) (req : Request) (sid : String)
    (d0 : Store String) (s0 : Store Bool) (v : Int)
    (hg : env.gateFree = true) (hN : pyIntOf req.num_steps = Except.ok v) :
    handle_start_dialog env req sid d0 s0 = startDialogWithSteps env req sid d0 s0 v := by
  simp [handle_start_dialog, hg, hN]

/-- The fully successful run (`model` loaded, `num_steps = n ≥ 1`, `os.makedirs`
not raising), characterized as an explicit record. -/
lemma startDialogWithSteps_run (env : Env) (req : Request) (sid : String)
    (d0 : Store String) (s0 : Store Bool) (n : Nat)
    (hm : env.modelLoaded = true) (hn : 1 ≤ n) (hmk : env.mkdirsOk = true) :
    startDialogWithSteps env req sid d0 s0 (n : Int) =
      { events := (runLoop req true env.llm env.cancel n 1 0 "" "").events ++
          [if env.cancel (runLoop req true env.llm env.cancel n 1 0 "" "").reads then
              Event.dialog_stopped (runLoop req true env.llm env.cancel n 1 0 "" "").lastStep
            else Event.dialog_completed (runLoop req true env.llm env.cancel n 1 0 "" "").lastStep],
        dialogs := Store.del (Store.set (Store.set d0 sid "") sid
          (runLoop req true env.llm env.cancel n 1 0 "" "").dtxt) sid,
        stops := Store.set s0 sid false,
        acquired := true, released := 1, exn := false,
        published := (runLoop req true env.llm env.cancel n 1 0 "" "").published,
        acalls := (runLoop req true env.llm env.cancel n 1 0 "" "").acalls,
        archiveArg := some (runLoop req true env.llm env.cancel n 1 0 "" "").dtxt } := by
  have hlt : ¬ ((n : Int) < 1) := by omega
  have htn : ((n : Int)).toNat = n := by omega
  unfold startDialogWithSteps
  rw [hm]
  cases hw : env.writeOk <;>
    simp [hlt, htn, save_dialog_to_file, hmk, hw]

/-- Where each observable of a `handle_start_dialog` run can come from. -/
lemma handle_start_dialog_cases (env : Env) (req : Request) (sid : String)
    (d0 : Store String) (s0 : Store Bool) :
    ((handle_start_dialog env req sid d0 s0).events = [Event.dialog_error lockedMsg]
        ∨ (handle_start_dialog env req sid d0 s0).events = []
        ∨ (handle_start_dialog env req sid d0 s0).events = [Event.new_line 0 modelNotLoadedMsg]
        ∨ ∃ N tail, (handle_start_dialog env req sid d0 s0).events
              = (runLoop req env.modelLoaded env.llm env.cancel N 1 0 "" "").events ++ tail
            ∧ ∀ e ∈ tail, isTerminalEvent e = true)
    ∧ (∀ pe ∈ (handle_start_dialog env req sid d0 s0).published,
        ∃ N, pe ∈ (runLoop req env.modelLoaded env.llm env.cancel N 1 0 "" "").published)
    ∧ (∀ c ∈ (handle_start_dialog env req sid d0 s0).acalls,
        ∃ N, c ∈ (runLoop req env.modelLoaded env.llm env.cancel N 1 0 "" "").acalls) := by
  cases hgE : env.gateFree with
  | false => simp [handle_start_dialog, hgE]
  | true =>
    rcases hps : pyIntOf req.num_steps with e | v
    · simp [handle_start_dialog, hgE, hps]
    · have hbody : handle_start_dialog env req sid d0 s0
          = startDialogWithSteps env req sid d0 s0 v := by
        simp [handle_start_dialog, hgE, hps]
      rw [hbody]
      cases hmE : env.modelLoaded with
      | false => simp [startDialogWithSteps, hmE]
      | true =>
        simp only [startDialogWithSteps, hmE, Bool.not_true, Bool.false_eq_true, if_false]
        by_cases hv : v < 1
        · rw [if_pos hv]
          refine ⟨Or.inr (Or.inr (Or.inr ⟨v.toNat, [], (List.append_nil _).symm, by simp⟩)),
            ?_, ?_⟩
          · intro pe hpe; exact ⟨v.toNat, hpe⟩
          · intro c hc; exact ⟨v.toNat, hc⟩
        · rw [if_neg hv]
          rcases hsv : save_dialog_to_file env.mkdirsOk env.writeOk env.timestamp env.timeStr
              sid (runLoop req true env.llm env.cancel v.toNat 1 0 "" "").dtxt req.topic
              req.role1_name req.role1_description req.role2_name
              req.role2_description with u | o
          · refine ⟨Or.inr (Or.inr (Or.inr ⟨v.toNat, [], (List.append_nil _).symm, by simp⟩)),
              ?_, ?_⟩
            · intro pe hpe; exact ⟨v.toNat, hpe⟩
            · intro c hc; exact ⟨v.toNat, hc⟩
          · refine ⟨Or.inr (Or.inr (Or.inr ⟨v.toNat,
              [if env.cancel (runLoop req true env.llm env.cancel v.toNat 1 0 "" "").reads then
                  Event.dialog_stopped (runLoop req true env.llm env.cancel v.toNat 1 0 "" "").lastStep
                else Event.dialog_completed (runLoop req true env.llm env.cancel v.toNat 1 0 "" "").lastStep],
              rfl, ?_⟩)), ?_, ?_⟩
            · intro e he
              rcases List.mem_singleton.mp he with rfl
              cases env.cancel (runLoop req true env.llm env.cancel v.toNat 1 0 "" "").reads <;> rfl
            · intro pe hpe; exact ⟨v.toNat, hpe⟩
            · intro c hc; exact ⟨v.toNat, hc⟩

/-! ## Concrete fixtures for witnesses and counterexamples -/

def reqA : Request :=
  { topic := "T", role1_name := "A", role1_description := "d1",
    role2_name := "B", role2_description := "d2", num_steps := PyVal.int 3 }

def reqOne : Request := { reqA with num_steps := PyVal.int 1 }

def reqBadSteps : Request := { reqA with num_steps := PyVal.str "abc" }

def llmTen : ModelCall → Except Unit String := fun _ => Except.ok "0123456789"

def envHappy : Env :=
  { gateFree := true, modelLoaded := true, llm := llmTen,
    cancel := fun _ => false, mkdirsOk := true, writeOk := true,
    timestamp := 0, timeStr := "ts" }

def envDenied : Env := { envHappy with gateFree := false }

def envNoModel : Env := { envHappy with modelLoaded := false }

def envNoWrite : Env := { envHappy with writeOk := false }

def envCancelFrom2 : Env := { envHappy with cancel := fun i => decide (2 ≤ i) }

def llmRetryDemo : ModelCall → Except Unit String :=
  fun c => if c.max_tokens = 100 then Except.ok "okokok" else Except.ok "hi"

/-! ## Claims -/

/-- C1: the claim says the gate is released exactly once before the handler
returns on every exit path, including any exception raised anywhere after
acquisition.  The code violates this: `int(data.get('num_steps', 7))`
(line 223) executes after `dialog_lock.acquire(blocking=False)` succeeded
(line 204) but before the `try`/`finally` (line 225), so a non-numeric
`num_steps` raises ValueError with the gate acquired and never released. -/
theorem gate_left_held_on_num_steps_parse_error :
    (handle_start_dialog envHappy reqBadSteps "s1" emptyStore emptyStore).acquired = true
    ∧ (handle_start_dialog envHappy reqBadSteps "s1" emptyStore emptyStore).released = 0
    ∧ (handle_start_dialog envHappy reqBadSteps "s1" emptyStore emptyStore).exn = true := by
  decide

/-- C2 counterexample: on a gate-denied `start_dialog` the failure is reported,
but — contrary to the claim that the session store holds no entry for the
session id — `dialogs[sid]` and `stop_flags[sid]` (written on lines 198/201
before the gate attempt) are still present after the handler returns. -/
theorem admission_error_entry_persists_cex :
    (handle_start_dialog envDenied reqA "s1" emptyStore emptyStore).events
        = [Event.dialog_error lockedMsg]
    ∧ (handle_start_dialog envDenied reqA "s1" emptyStore emptyStore).dialogs "s1" = some ""
    ∧ (handle_start_dialog envDenied reqA "s1" emptyStore emptyStore).stops "s1" = some false := by
  decide

/-- C2 (amended): every admission-error exit (gate denied, or model absent at
start) reports the failure to the caller, but the transcript map keeps an
empty-string entry and the stop-flag map a `False` entry for the session id. -/
theorem admission_error_reports_and_keeps_entries (env : Env) (req : Request)
    (sid : String) (d0 : Store String) (s0 : Store Bool) :
    (env.gateFree = false →
      (handle_start_dialog env req sid d0 s0).events = [Event.dialog_error lockedMsg]
      ∧ (handle_start_dialog env req sid d0 s0).dialogs sid = some ""
      ∧ (handle_start_dialog env req sid d0 s0).stops sid = some false)
    ∧ (∀ v : Int, env.gateFree = true → env.modelLoaded = false →
      pyIntOf req.num_steps = Except.ok v →
      (handle_start_dialog env req sid d0 s0).events = [Event.new_line 0 modelNotLoadedMsg]
      ∧ (handle_start_dialog env req sid d0 s0).dialogs sid = some ""
      ∧ (handle_start_dialog env req sid d0 s0).stops sid = some false
      ∧ (handle_start_dialog env req sid d0 s0).released = 1) := by
  constructor
  · intro hg
    simp [handle_start_dialog, hg, Store.set]
  · intro v hg hm hN
    rw [handle_start_dialog_ok env req sid d0 s0 v hg hN]
    simp [startDialogWithSteps, hm, Store.set]

/-- C2 witness. -/
theorem admission_error_reports_and_keeps_entries_witness :
    (handle_start_dialog envDenied reqA "s1" emptyStore emptyStore).dialogs "s1" = some ""
    ∧ (handle_start_dialog envNoModel reqA "s1" emptyStore emptyStore).dialogs "s1" = some "" := by
  constructor
  · exact ((admission_error_reports_and_keeps_entries envDenied reqA "s1"
      emptyStore emptyStore).1 rfl).2.1
  · exact ((admission_error_reports_and_keeps_entries envNoModel reqA "s1"
      emptyStore emptyStore).2 3 rfl rfl (by decide)).2.1

/-- C3: a run with the gate acquired, the model loaded, `num_steps = n ≥ 1`,
no cancellation (and the archive directory creatable — `os.makedirs` sits
outside the archiver's `try`, see C8) emits exactly the `new_line` events for
turns `1..n`, in strictly increasing order with no gaps or repeats, each line
opened by the parity-determined speaker (persona 1 on odd turns, persona 2 on
even), followed by a single terminal `dialog_completed` carrying `n`. -/
theorem completed_dialog_event_sequence (env : Env) (req : Request) (sid : String)
    (d0 : Store String) (s0 : Store Bool) (n : Nat)
    (hg : env.gateFree = true) (hm : env.modelLoaded = true)
    (hN : pyIntOf req.num_steps = Except.ok (n : Int)) (hn : 1 ≤ n)
    (hc : ∀ i, env.cancel i = false) (hmk : env.mkdirsOk = true) :
    (handle_start_dialog env req sid d0 s0).events.filterMap newLineIdx = List.range' 1 n
    ∧ (handle_start_dialog env req sid d0 s0).events.getLast?
        = some (Event.dialog_completed n)
    ∧ (∀ e ∈ (handle_start_dialog env req sid d0 s0).events.dropLast,
        isTerminalEvent e = false)
    ∧ (∀ s l, Event.new_line s l ∈ (handle_start_dialog env req sid d0 s0).events →
        ∃ u, l = speakerFor req s ++ ": " ++ u)
    ∧ (∀ pe ∈ (handle_start_dialog env req sid d0 s0).published,
        pe.speaker = speakerFor req pe.step) := by
  rw [handle_start_dialog_ok env req sid d0 s0 ((n : Nat) : Int) hg hN,
    startDialogWithSteps_run env req sid d0 s0 n hm hn hmk]
  obtain ⟨hA, hB, hC⟩ := runLoop_nocancel req true env.llm env.cancel hc n 1 0 "" ""
  have hstop : env.cancel (runLoop req true env.llm env.cancel n 1 0 "" "").reads = false :=
    hc _
  have hlast : (runLoop req true env.llm env.cancel n 1 0 "" "").lastStep = n := by
    rw [hB]; omega
  simp only [hstop, Bool.false_eq_true, if_false, hlast]
  refine ⟨?_, ?_, ?_, ?_, ?_⟩
  · show ((runLoop req true env.llm env.cancel n 1 0 "" "").events
      ++ [Event.dialog_completed n]).filterMap newLineIdx = List.range' 1 n
    rw [List.filterMap_append, hA]
    simp [newLineIdx]
  · show ((runLoop req true env.llm env.cancel n 1 0 "" "").events
      ++ [Event.dialog_completed n]).getLast? = some (Event.dialog_completed n)
    exact List.getLast?_concat _
  · show ∀ e ∈ ((runLoop req true env.llm env.cancel n 1 0 "" "").events
      ++ [Event.dialog_completed n]).dropLast, isTerminalEvent e = false
    rw [List.dropLast_concat]
    exact hC
  · intro s l hmem
    show ∃ u, l = speakerFor req s ++ ": " ++ u
    have hmem2 : Event.new_line s l ∈ (runLoop req true env.llm env.cancel n 1 0 "" "").events
        ++ [Event.dialog_completed n] := hmem
    rcases List.mem_append.mp hmem2 with hmem3 | hmem3
    · exact runLoop_newline_shape req true env.llm env.cancel n 1 0 "" "" s l hmem3
    · exact absurd (List.mem_singleton.mp hmem3) (by simp)
  · intro pe hpe
    exact ((runLoop_opener req true env.llm env.cancel n 1 0 "" "" (le_refl 1)).1 pe hpe).1

/-- C3 witness: a concrete three-turn run. -/
theorem completed_dialog_event_sequence_witness :
    (handle_start_dialog envHappy reqA "s1" emptyStore emptyStore).events.filterMap newLineIdx
        = List.range' 1 3
    ∧ (handle_start_dialog envHappy reqA "s1" emptyStore emptyStore).events.getLast?
        = some (Event.dialog_completed 3) := by
  have h := completed_dialog_event_sequence envHappy reqA "s1" emptyStore emptyStore 3
    rfl rfl (by decide) (by decide) (fun i => rfl) rfl
  exact ⟨h.1, h.2.1⟩

/-- C4: whenever turn 1 is published, its utterance is the fixed scripted
opener, its speaker is persona 1, and the inference adapter is not invoked
for turn 1 — for any topic, persona descriptions, model behaviour and
cancellation pattern. -/
theorem turn_one_fixed_opener (env : Env) (req : Request) (sid : String)
    (d0 : Store String) (s0 : Store Bool) (pe : PubEntry)
    (hmem : pe ∈ (handle_start_dialog env req sid d0 s0).published)
    (h1 : pe.step = 1) :
    pe.response = fixedOpener ∧ pe.speaker = req.role1_name
    ∧ ∀ c ∈ (handle_start_dialog env req sid d0 s0).acalls, c.step ≠ 1 := by
  obtain ⟨-, hpub, hac⟩ := handle_start_dialog_cases env req sid d0 s0
  obtain ⟨N, hmem2⟩ := hpub pe hmem
  obtain ⟨hsp, hresp⟩ :=
    (runLoop_opener req env.modelLoaded env.llm env.cancel N 1 0 "" "" (le_refl 1)).1 pe hmem2
  refine ⟨hresp h1, ?_, ?_⟩
  · rw [hsp, h1]
    simp [speakerFor]
  · intro c hc
    obtain ⟨M, hc2⟩ := hac c hc
    have h2 :=
      (runLoop_opener req env.modelLoaded env.llm env.cancel M 1 0 "" "" (le_refl 1)).2 c hc2
    omega

/-- C4 witness: the concrete one-turn run publishes turn 1 with the fixed
opener, and no inference-adapter call for turn 1 exists. -/
theorem turn_one_fixed_opener_witness :
    ((PubEntry.mk 1 "A" fixedOpener).response = fixedOpener
      ∧ (PubEntry.mk 1 "A" fixedOpener).speaker = reqOne.role1_name)
    ∧ ACall.mk 1 "T" "d1" ""
        ∉ (handle_start_dialog envHappy reqOne "s1" emptyStore emptyStore).acalls := by
  have h := turn_one_fixed_opener envHappy reqOne "s1" emptyStore emptyStore
    (PubEntry.mk 1 "A" fixedOpener) (by decide) rfl
  exact ⟨⟨h.1, h.2.1⟩, fun hc => absurd rfl (h.2.2 _ hc)⟩

/-- C5: with the model loaded, a first output whose stripped form is empty or
shorter than 5 characters triggers exactly one retry, with the simplified
fallback prompt and a 100-token cap, whose (stripped) result is returned even
if still short; the model is never invoked more than twice per call; and an
exception raised during generation yields the fixed diagnostic string instead
of propagating. -/
theorem generate_response_retry_policy
    (llm : ModelCall → Except Unit String) (topic pd ch t : String) (mt : Nat)
    (hfirst : llm (mkMainCall topic pd ch mt) = Except.ok t)
    (hshort : pyStrip t = "" ∨ (pyStrip t).length < 5) :
    ((generate_response true llm topic pd ch mt).calls
        = [mkMainCall topic pd ch mt, mkRetryCall topic pd]
      ∧ (mkRetryCall topic pd).max_tokens = 100
      ∧ (∀ t3, llm (mkRetryCall topic pd) = Except.ok t3 →
          (generate_response true llm topic pd ch mt).response = pyStrip (pyStrip t3))
      ∧ (llm (mkRetryCall topic pd) = Except.error () →
          (generate_response true llm topic pd ch mt).response = genErrorMsg))
    ∧ (∀ llm2 : ModelCall → Except Unit String,
        (generate_response true llm2 topic pd ch mt).calls.length ≤ 2)
    ∧ (∀ llm3 : ModelCall → Except Unit String,
        llm3 (mkMainCall topic pd ch mt) = Except.error () →
        (generate_response true llm3 topic pd ch mt).response = genErrorMsg) := by
  have heq : generate_response true llm topic pd ch mt =
      (match llm (mkRetryCall topic pd) with
        | Except.error _ =>
          GenResult.mk genErrorMsg [mkMainCall topic pd ch mt, mkRetryCall topic pd]
        | Except.ok t2 =>
          GenResult.mk (pyStrip (pyStrip t2)) [mkMainCall topic pd ch mt, mkRetryCall topic pd]) := by
    simp only [generate_response, Bool.not_true, Bool.false_eq_true, if_false, hfirst]
    rw [if_pos hshort]
  refine ⟨?_, ?_, ?_⟩
  · rcases hr : llm (mkRetryCall topic pd) with u | t2
    all_goals rw [hr] at heq
    · cases u
      refine ⟨by rw [heq], rfl, ?_, ?_⟩
      · intro t3 ht3
        exact absurd ht3 (by simp)
      · intro h2
        rw [heq]
    · refine ⟨by rw [heq], rfl, ?_, ?_⟩
      · intro t3 ht3
        injection ht3 with h3
        subst h3
        rw [heq]
      · intro h2
        exact absurd h2 (by simp)
  · intro llm2
    rcases h2 : llm2 (mkMainCall topic pd ch mt) with u | t2
    · simp [generate_response, h2]
    · by_cases hs2 : pyStrip t2 = "" ∨ (pyStrip t2).length < 5
      · rcases h3 : llm2 (mkRetryCall topic pd) with u3 | t3 <;>
          simp [generate_response, h2, hs2, h3]
      · simp [generate_response, h2, hs2]
  · intro llm3 h3
    simp [generate_response, h3]

/-- C5 witness: first output "hi" (short), retry returns "okokok". -/
theorem generate_response_retry_policy_witness :
    (generate_response true llmRetryDemo "T" "d1" "h" 300).calls
        = [mkMainCall "T" "d1" "h" 300, mkRetryCall "T" "d1"]
    ∧ (generate_response true llmRetryDemo "T" "d1" "h" 300).response
        = pyStrip (pyStrip "okokok") := by
  have h := generate_response_retry_policy llmRetryDemo "T" "d1" "h" "hi" 300
    (by decide) (by decide)
  exact ⟨h.1.1, h.1.2.2.1 "okokok" (by decide)⟩

/-- C6 counterexample: with no accelerator present the function returns the
literal status string `"no_gpu"`, not the `"unavailable"` stated by the
claim. -/
theorem gpu_no_gpu_not_unavailable_cex :
    check_gpu_status (Except.ok []) = "no_gpu"
    ∧ check_gpu_status (Except.ok []) ≠ "unavailable" := by
  decide

/-- C6 (amended): each poll of the status function returns `"no_gpu"` (the
no-accelerator status) when the accelerator list is empty, otherwise `"busy"`
when the primary accelerator's load exceeds 80% and `"free"` when it does
not, and `"error"` when the query itself raises. -/
theorem check_gpu_status_classification :
    check_gpu_status (Except.error ()) = "error"
    ∧ check_gpu_status (Except.ok []) = "no_gpu"
    ∧ ∀ (g : GPUInfo) (rest : List GPUInfo),
        (g.load * 100 > 80 → check_gpu_status (Except.ok (g :: rest)) = "busy")
        ∧ (¬ g.load * 100 > 80 → check_gpu_status (Except.ok (g :: rest)) = "free") := by
  refine ⟨rfl, rfl, ?_⟩
  intro g rest
  constructor
  · intro h; simp [check_gpu_status, h]
  · intro h; simp [check_gpu_status, h]

/-- C6 witness: load 95% → busy, load 10% → free. -/
theorem check_gpu_status_classification_witness :
    check_gpu_status (Except.ok [GPUInfo.mk ((95 : Rat)/100)]) = "busy"
    ∧ check_gpu_status (Except.ok [GPUInfo.mk ((10 : Rat)/100)]) = "free" := by
  constructor
  · exact (check_gpu_status_classification.2.2 (GPUInfo.mk ((95 : Rat)/100)) []).1
      (by norm_num)
  · exact (check_gpu_status_classification.2.2 (GPUInfo.mk ((10 : Rat)/100)) []).2
      (by norm_num)

/-- C7: cooperative cancellation bound.  If the stop flag is set — modelled as
the read stream being monotone and true at the checkpoint-C read of turn `k`
(index `3*(k-1)+2`, the first read after turn `k`'s generation completes) —
then the run never emits a `new_line` or a `waiting` event for any turn
`≥ k+2`: the loop terminates at or before turn `k+1` and turn `k+2` is never
produced. -/
theorem cancellation_stops_future_turns (env : Env) (req : Request) (sid : String)
    (d0 : Store String) (s0 : Store Bool) (k : Nat) (hk : 1 ≤ k)
    (hmono : ∀ i j, i ≤ j → env.cancel i = true → env.cancel j = true)
    (hset : env.cancel (3 * (k - 1) + 2) = true) :
    (∀ s l, Event.new_line s l ∈ (handle_start_dialog env req sid d0 s0).events →
        s < k + 2)
    ∧ (∀ s sp, Event.waiting s sp ∈ (handle_start_dialog env req sid d0 s0).events →
        s < k + 2) := by
  obtain ⟨hev, -, -⟩ := handle_start_dialog_cases env req sid d0 s0
  constructor
  · intro s l hmem
    rcases hev with h | h | h | ⟨N, tail, h, htail⟩
    · rw [h] at hmem
      exact absurd (List.mem_singleton.mp hmem) (by simp)
    · rw [h] at hmem
      exact absurd hmem (List.not_mem_nil _)
    · rw [h] at hmem
      have h0 := List.mem_singleton.mp hmem
      injection h0 with h1 h2
      omega
    · rw [h] at hmem
      rcases List.mem_append.mp hmem with hm | hm
      · obtain ⟨hs1, hread⟩ := runLoop_newline_read req env.modelLoaded env.llm env.cancel
          N 1 0 "" "" s l hm
        by_contra hcon
        push_neg at hcon
        have hcontr : env.cancel (3 * (s - 1) + 2) = true :=
          hmono _ _ (by omega) hset
        simp [hcontr] at hread
      · have h2 := htail _ hm
        simp [isTerminalEvent] at h2
  · intro s sp hmem
    rcases hev with h | h | h | ⟨N, tail, h, htail⟩
    · rw [h] at hmem
      exact absurd (List.mem_singleton.mp hmem) (by simp)
    · rw [h] at hmem
      exact absurd hmem (List.not_mem_nil _)
    · rw [h] at hmem
      exact absurd (List.mem_singleton.mp hmem) (by simp)
    · rw [h] at hmem
      rcases List.mem_append.mp hmem with hm | hm
      · obtain ⟨hs1, hread⟩ := runLoop_waiting_read req env.modelLoaded env.llm env.cancel
          N 1 0 "" "" s sp hm
        by_contra hcon
        push_neg at hcon
        have hcontr : env.cancel (3 * (s - 1)) = true :=
          hmono _ _ (by omega) hset
        simp [hcontr] at hread
      · have h2 := htail _ hm
        simp [isTerminalEvent] at h2

/-- C7 witness: flag true from read index 2 on (checkpoint C of turn 1,
`k = 1`): turn 3's `new_line` never appears. -/
theorem cancellation_stops_future_turns_witness :
    Event.new_line 3 "A: x"
      ∉ (handle_start_dialog envCancelFrom2 reqA "s1" emptyStore emptyStore).events := by
  intro hmem
  have h := (cancellation_stops_future_turns envCancelFrom2 reqA "s1" emptyStore
    emptyStore 1 (by decide)
    (fun i j hij hi => by
      simp only [envCancelFrom2, decide_eq_true_eq] at hi ⊢
      omega)
    (by decide)).1 3 "A: x" hmem
  omega

/-- C8: a failure of the archiver's file write (directory creation
succeeding) is caught inside `save_dialog_to_file`, which returns normally
with no file written, and the run still emits its terminal notification
(`dialog_completed` or `dialog_stopped`) and raises nothing. -/
theorem archive_write_failure_preserves_terminal_event (env : Env) (req : Request)
    (sid : String) (d0 : Store String) (s0 : Store Bool) (n : Nat)
    (hg : env.gateFree = true) (hm : env.modelLoaded = true)
    (hN : pyIntOf req.num_steps = Except.ok (n : Int)) (hn : 1 ≤ n)
    (hmk : env.mkdirsOk = true) (_hwr : env.writeOk = false) :
    (∀ (ts : Nat) (tstr sid2 hist top a b c d : String),
        save_dialog_to_file true false ts tstr sid2 hist top a b c d = Except.ok none)
    ∧ (handle_start_dialog env req sid d0 s0).exn = false
    ∧ ((handle_start_dialog env req sid d0 s0).events.getLast?).map isTerminalEvent
        = some true := by
  refine ⟨?_, ?_, ?_⟩
  · intro ts tstr sid2 hist top a b c d
    simp [save_dialog_to_file]
  · rw [handle_start_dialog_ok env req sid d0 s0 ((n : Nat) : Int) hg hN,
      startDialogWithSteps_run env req sid d0 s0 n hm hn hmk]
  · rw [handle_start_dialog_ok env req sid d0 s0 ((n : Nat) : Int) hg hN,
      startDialogWithSteps_run env req sid d0 s0 n hm hn hmk]
    simp only [List.getLast?_concat, Option.map]
    cases hcl : env.cancel (runLoop req true env.llm env.cancel n 1 0 "" "").reads <;>
      simp [hcl, isTerminalEvent]

/-- C8 witness. -/
theorem archive_write_failure_preserves_terminal_event_witness :
    save_dialog_to_file true false 0 "ts" "s1" "h" "T" "A" "d1" "B" "d2" = Except.ok none
    ∧ ((handle_start_dialog envNoWrite reqOne "s1" emptyStore emptyStore).events.getLast?).map
        isTerminalEvent = some true := by
  have h := archive_write_failure_preserves_terminal_event envNoWrite reqOne "s1"
    emptyStore emptyStore 1 rfl rfl (by decide) (by decide) rfl rfl
  exact ⟨h.1 0 "ts" "s1" "h" "T" "A" "d1" "B" "d2", h.2.2⟩

/-- C9 counterexample: a completed run (terminal `dialog_completed` emitted,
transcript entry deleted) after which the stop-flag entry for the session id
still exists — the claim says both entries are destroyed. -/
theorem stop_flag_entry_survives_finalization_cex :
    (handle_start_dialog envHappy reqOne "s1" emptyStore emptyStore).events.getLast?
        = some (Event.dialog_completed 1)
    ∧ (handle_start_dialog envHappy reqOne "s1" emptyStore emptyStore).dialogs "s1" = none
    ∧ (handle_start_dialog envHappy reqOne "s1" emptyStore emptyStore).stops "s1"
        = some false := by
  decide

/-- C9 (amended): after a run that reaches finalization the transcript entry
`dialogs[sid]` is deleted, but the stop-flag entry `stop_flags[sid]` is never
removed: it persists after the handler returns (holding the value written at
dialog start, absent concurrent stop requests). -/
theorem finalization_destroys_only_transcript_entry (env : Env) (req : Request)
    (sid : String) (d0 : Store String) (s0 : Store Bool) (n : Nat)
    (hg : env.gateFree = true) (hm : env.modelLoaded = true)
    (hN : pyIntOf req.num_steps = Except.ok (n : Int)) (hn : 1 ≤ n)
    (hmk : env.mkdirsOk = true) :
    (handle_start_dialog env req sid d0 s0).dialogs sid = none
    ∧ (handle_start_dialog env req sid d0 s0).stops sid = some false := by
  rw [handle_start_dialog_ok env req sid d0 s0 ((n : Nat) : Int) hg hN,
    startDialogWithSteps_run env req sid d0 s0 n hm hn hmk]
  exact ⟨by simp [Store.del], by simp [Store.set]⟩

/-- C9 witness. -/
theorem finalization_destroys_only_transcript_entry_witness :
    (handle_start_dialog envHappy reqA "s2" emptyStore emptyStore).dialogs "s2" = none
    ∧ (handle_start_dialog envHappy reqA "s2" emptyStore emptyStore).stops "s2"
        = some false :=
  finalization_destroys_only_transcript_entry envHappy reqA "s2" emptyStore emptyStore 3
    rfl rfl (by decide) (by decide) rfl

/-- C10: from any loop state in which they agree (so, inductively, at every
point of the loop) the store transcript `dialogs[sid]` and the local
`conversation_history` remain equal, and both extend the entry text by
exactly the lines of the emitted `new_line` events, each followed by a
newline; consequently the text handed to the archiver equals the published
lines joined with newlines, and nothing else. -/
theorem transcript_history_and_events_agree :
    (∀ (req : Request) (ml : Bool) (llm : ModelCall → Except Unit String)
        (cancel : Nat → Bool) (n s r : Nat) (hist dtxt : String), hist = dtxt →
      (runLoop req ml llm cancel n s r hist dtxt).hist
          = (runLoop req ml llm cancel n s r hist dtxt).dtxt
      ∧ (runLoop req ml llm cancel n s r hist dtxt).dtxt
          = dtxt ++ joinLines
              ((runLoop req ml llm cancel n s r hist dtxt).events.filterMap newLineText))
    ∧ (∀ (env : Env) (req : Request) (sid : String) (d0 : Store String)
        (s0 : Store Bool) (n : Nat),
        env.gateFree = true → env.modelLoaded = true →
        pyIntOf req.num_steps = Except.ok (n : Int) → 1 ≤ n → env.mkdirsOk = true →
        (handle_start_dialog env req sid d0 s0).archiveArg
          = some (joinLines
              ((handle_start_dialog env req sid d0 s0).events.filterMap newLineText))) := by
  constructor
  · intro req ml llm cancel n s r hist dtxt h
    exact runLoop_transcript req ml llm cancel n s r hist dtxt h
  · intro env req sid d0 s0 n hg hm hN hn hmk
    obtain ⟨-, hD⟩ := runLoop_transcript req true env.llm env.cancel n 1 0 "" "" rfl
    rw [handle_start_dialog_ok env req sid d0 s0 ((n : Nat) : Int) hg hN,
      startDialogWithSteps_run env req sid d0 s0 n hm hn hmk]
    cases hcl : env.cancel (runLoop req true env.llm env.cancel n 1 0 "" "").reads <;>
      simp [hcl, newLineText, List.filterMap_append] <;>
      rw [hD, strEmpty_append]

/-- C10 witness. -/
theorem transcript_history_and_events_agree_witness :
    (runLoop reqOne true llmTen (fun _ => false) 1 1 0 "" "").hist
        = (runLoop reqOne true llmTen (fun _ => false) 1 1 0 "" "").dtxt
    ∧ (handle_start_dialog envHappy reqOne "s1" emptyStore emptyStore).archiveArg
        = some (joinLines
            ((handle_start_dialog envHappy reqOne "s1" emptyStore
              emptyStore).events.filterMap newLineText)) := by
  constructor
  · exact (transcript_history_and_events_agree.1 reqOne true llmTen (fun _ => false)
      1 1 0 "" "" rfl).1
  · exact transcript_history_and_events_agree.2 envHappy reqOne "s1" emptyStore
      emptyStore 1 rfl rfl (by decide) (by decide) rfl

end DialogApp
